import Mathlib

/-
Shallow embedding of `src/examples/demo.rs` from the egui-tao repository:
a tao window + egui GUI + wgpu renderer demo.  The `Gpu`, `Renderer` and
`DemoApp` types and their operations are translated from the source;
external collaborators (the wgpu surface/device, the egui adapter and the
egui-wgpu texture cache) are modelled from the contracts the spec states
for them.
-/

namespace Demo

/-- A wgpu texture format, abstracted to an identifier plus its sRGB flag
(the only property the demo inspects, via `TextureFormat::is_srgb`). -/
structure TextureFormat where
  id : Nat
  srgb : Bool
deriving DecidableEq

/-- `wgpu::TextureFormat::is_srgb`. -/
def TextureFormat.is_srgb (f : TextureFormat) : Bool := f.srgb

/-- `wgpu::TextureUsages::RENDER_ATTACHMENT`, as an abstract usage tag. -/
def RENDER_ATTACHMENT : Nat := 16

/-- `wgpu::SurfaceConfiguration` with the fields the demo sets
(`demo.rs` lines 179-188); present/alpha modes are abstract tags. -/
structure SurfaceConfiguration where
  usage : Nat
  format : TextureFormat
  width : Nat
  height : Nat
  present_mode : Nat
  alpha_mode : Nat
  view_formats : List TextureFormat
  desired_maximum_frame_latency : Nat
deriving DecidableEq

/-- The wgpu surface, modelled by its observable state: the configuration
last applied by `Surface::configure`, and the next presentable image the
presentation engine would hand out (`none` models a stale surface or a
lost context, in which case acquisition fails). -/
structure Surface where
  configured : Option SurfaceConfiguration
  current_texture : Option Nat
deriving DecidableEq

/-- `wgpu::Surface::configure` (the device handle plays no role in the
observable state). -/
def Surface.configure (s : Surface) (config : SurfaceConfiguration) : Surface :=
  { s with configured := some config }

/-- `wgpu::Surface::get_current_texture`, returning the next presentable
image or `none` when acquisition fails. -/
def Surface.get_current_texture (s : Surface) : Option Nat :=
  s.current_texture

/-- `Gpu` from `demo.rs` lines 119-125; device and queue are opaque
handles. -/
structure Gpu where
  surface : Surface
  device : Nat
  queue : Nat
  surface_config : SurfaceConfiguration
  surface_format : TextureFormat
deriving DecidableEq

/-- `Gpu::resize` (`demo.rs` lines 132-136): store the new width/height in
the configuration and reconfigure the surface. -/
def Gpu.resize (g : Gpu) (width height : Nat) : Gpu :=
  let config := { g.surface_config with width := width, height := height }
  { g with surface_config := config, surface := g.surface.configure config }

/-- The surface capability lists reported by
`wgpu::Surface::get_capabilities` (`demo.rs` line 170). -/
structure SurfaceCapabilities where
  formats : List TextureFormat
  present_modes : List Nat
  alpha_modes : List Nat
deriving DecidableEq

/-- The surface-format selection of `Gpu::new_async` (`demo.rs` lines
172-177): the first non-sRGB format in the capability list, falling back
to the first format; `none` models the panic on an empty list (Rust
indexes `formats[0]` inside `unwrap_or`). -/
def surfaceFormatOf (formats : List TextureFormat) : Option TextureFormat :=
  match formats.head? with
  | none => none
  | some f0 => some ((formats.find? fun f => ! f.is_srgb).getD f0)

/-- `Gpu::new_async` (`demo.rs` lines 138-199) after adapter/device
negotiation: pick the surface format, build the configuration and
configure the surface.  `none` models the panics on empty capability
lists. -/
def Gpu.new (surface : Surface) (device queue : Nat) (caps : SurfaceCapabilities)
    (width height : Nat) : Option Gpu :=
  match surfaceFormatOf caps.formats, caps.present_modes.head?, caps.alpha_modes.head? with
  | some surface_format, some present_mode, some alpha_mode =>
    let surface_config : SurfaceConfiguration :=
      { usage := RENDER_ATTACHMENT
        format := surface_format
        width := width
        height := height
        present_mode := present_mode
        alpha_mode := alpha_mode
        view_formats := []
        desired_maximum_frame_latency := 2 }
    some { surface := surface.configure surface_config
           device := device
           queue := queue
           surface_config := surface_config
           surface_format := surface_format }
  | _, _, _ => none

/-- An egui texture id, abstracted to a natural number. -/
abbrev TextureId := Nat

/-- An egui image delta, abstracted to its payload. -/
abbrev ImageDelta := Nat

/-- The texture-cache contents: which image data each id currently maps
to. -/
abbrev TextureCache := TextureId → Option ImageDelta

/-- A tessellated `egui::epaint::ClippedPrimitive`, abstract. -/
abbrev ClippedPrimitive := Nat

/-- `egui_wgpu::ScreenDescriptor` (`demo.rs` lines 314-320); the device
pixel ratio is an abstract scale value. -/
structure ScreenDescriptor where
  size_in_pixels : Nat × Nat
  pixels_per_point : Nat
deriving DecidableEq

/-- `egui::TexturesDelta`: the batch of texture updates produced by a GUI
pass, a list of set entries and a list of ids to free. -/
structure TexturesDelta where
  set : List (TextureId × ImageDelta)
  free : List TextureId
deriving DecidableEq

/-- The `egui_wgpu::Renderer`, modelled by its observable state: the
internal texture cache, and the draw data last uploaded by
`update_buffers`. -/
structure EguiRenderer where
  textures : TextureCache
  last_buffers : Option (List ClippedPrimitive × ScreenDescriptor)

/-- Modelled from the spec: `egui_wgpu::Renderer::update_texture` is
external; per the spec's contract, a set entry uploads/updates the cached
texture for its id. -/
def EguiRenderer.update_texture (er : EguiRenderer) (id : TextureId)
    (image_delta : ImageDelta) : EguiRenderer :=
  { er with textures := fun i => if i = id then some image_delta else er.textures i }

/-- Modelled from the spec: `egui_wgpu::Renderer::free_texture` is
external; per the spec's contract, a free entry releases the cached
texture for its id. -/
def EguiRenderer.free_texture (er : EguiRenderer) (id : TextureId) : EguiRenderer :=
  { er with textures := fun i => if i = id then none else er.textures i }

/-- Modelled from the spec: `egui_wgpu::Renderer::update_buffers` is
external; it derives GPU buffers from the paint jobs and the screen
descriptor, recorded here as the last upload. -/
def EguiRenderer.update_buffers (er : EguiRenderer)
    (paint_jobs : List ClippedPrimitive) (screen_descriptor : ScreenDescriptor) :
    EguiRenderer :=
  { er with last_buffers := some (paint_jobs, screen_descriptor) }

/-- A single texture-delta entry, tagged with how it arrived in a batch
(the spec discusses the arrival order of set/free entries). -/
inductive TextureDeltaEntry where
  | set (id : TextureId) (image_delta : ImageDelta)
  | free (id : TextureId)
deriving DecidableEq

/-- Apply one texture-delta entry to the renderer's cache, using the same
per-entry operations `render_frame` uses. -/
def EguiRenderer.applyEntry (er : EguiRenderer) : TextureDeltaEntry → EguiRenderer
  | .set id image_delta => er.update_texture id image_delta
  | .free id => er.free_texture id

/-- Apply a batch of texture-delta entries in arrival order. -/
def EguiRenderer.applyEntries (er : EguiRenderer) (entries : List TextureDeltaEntry) :
    EguiRenderer :=
  entries.foldl EguiRenderer.applyEntry er

/-- `Renderer` from `demo.rs` lines 13-16, plus a counter of successfully
presented frames (the observable effect of `present`). -/
structure Renderer where
  gpu : Gpu
  egui_renderer : EguiRenderer
  frames_presented : Nat

/-- `Renderer::new` (`demo.rs` lines 19-30): wrap a fresh egui renderer
around the GPU context; the egui texture cache starts empty. -/
def Renderer.new (gpu : Gpu) : Renderer :=
  { gpu := gpu
    egui_renderer := { textures := fun _ => none, last_buffers := none }
    frames_presented := 0 }

/-- `Renderer::resize` (`demo.rs` lines 32-34). -/
def Renderer.resize (r : Renderer) (width height : Nat) : Renderer :=
  { r with gpu := r.gpu.resize width height }

/-- `Renderer::render_frame` (`demo.rs` lines 36-116): apply the set
entries then the free entries of the textures delta, upload buffers,
acquire the next surface image (the `expect` panic on failure is modelled
by `none`), render, submit and present. -/
def Renderer.render_frame (r : Renderer) (screen_descriptor : ScreenDescriptor)
    (paint_jobs : List ClippedPrimitive) (textures_delta : TexturesDelta)
    (_delta_time : Nat) : Option Renderer :=
  let er := textures_delta.set.foldl
    (fun er p => er.update_texture p.1 p.2) r.egui_renderer
  let er := textures_delta.free.foldl
    (fun er id => er.free_texture id) er
  let er := er.update_buffers paint_jobs screen_descriptor
  match r.gpu.surface.get_current_texture with
  | none => none
  | some _surface_texture =>
    some { r with egui_renderer := er, frames_presented := r.frames_presented + 1 }

/-- The tao window, modelled by the two properties the demo reads: scale
factor (abstract) and inner pixel size. -/
structure Window where
  scale_factor : Nat
  inner_size : Nat × Nat
deriving DecidableEq

/-- `tao::event::ElementState` of a key event. -/
inductive ElementState where
  | Pressed
  | Released
deriving DecidableEq

/-- `tao::keyboard::KeyCode`, abstracted to Escape versus everything
else. -/
inductive KeyCode where
  | Escape
  | Other (code : Nat)
deriving DecidableEq

/-- The fields of `tao::event::KeyEvent` the demo reads. -/
structure KeyEvent where
  physical_key : KeyCode
  state : ElementState
deriving DecidableEq

/-- `tao::event::WindowEvent`, restricted to the variants the demo
matches on; all others collapse into `Other`. -/
inductive WindowEvent where
  | KeyboardInput (event : KeyEvent)
  | Resized (width height : Nat)
  | CloseRequested
  | Other (tag : Nat)
deriving DecidableEq

/-- `tao::event::Event`, restricted to the variants the demo matches
on. -/
inductive Event where
  | WindowEvent (event : WindowEvent)
  | RedrawRequested
  | Other (tag : Nat)
deriving DecidableEq

/-- `tao::event_loop::ControlFlow`; `Exit` is the Exiting state of the
application loop. -/
inductive ControlFlow where
  | Poll
  | Wait
  | Exit
deriving DecidableEq

/-- Modelled from the spec: the `egui::FullOutput` a GUI pass returns
(`end_pass` is external); only the fields the demo forwards are kept. -/
structure FullOutput where
  textures_delta : TexturesDelta
  shapes : List Nat
  pixels_per_point : Nat

/-- Modelled from the spec: the external GUI State Adapter
(`egui_tao::State`).  `consumes` is its `on_window_event(window, event) ->
consumed: bool` oracle; `frame_output` is what its next `end_pass`
returns; `pixels_per_point` is the scale setting. -/
structure GuiState where
  consumes : WindowEvent → Bool
  pixels_per_point : Nat
  frame_output : FullOutput

/-- Modelled from the spec: `on_window_event(window, event) -> consumed:
bool`. -/
def GuiState.on_window_event (gs : GuiState) (ev : WindowEvent) : Bool :=
  gs.consumes ev

/-- Modelled from the spec: `set_pixels_per_point(scale)`. -/
def GuiState.set_pixels_per_point (gs : GuiState) (scale : Nat) : GuiState :=
  { gs with pixels_per_point := scale }

/-- Modelled from the spec: `tessellate(shapes, pixels_per_point) ->
draw_primitives` is external; shapes pass through as abstract
primitives. -/
def tessellate (shapes : List Nat) (_pixels_per_point : Nat) : List ClippedPrimitive :=
  shapes

/-- `DemoApp` from `demo.rs` lines 202-209; the render timestamp is an
abstract tick. -/
structure DemoApp where
  window : Window
  renderer : Renderer
  gui_state : GuiState
  last_render_time : Nat
  last_size : Nat × Nat
  switch_position : Bool

/-- `DemoApp::new` (`demo.rs` lines 211-248): record the window's inner
size as the last-known size and build the renderer at that size; `none`
models the startup panics. -/
def DemoApp.new (window : Window) (surface : Surface) (device queue : Nat)
    (caps : SurfaceCapabilities) (gui_state : GuiState) : Option DemoApp :=
  let last_size := window.inner_size
  match Gpu.new surface device queue caps window.inner_size.1 window.inner_size.2 with
  | none => none
  | some gpu =>
    some { window := window
           renderer := Renderer.new gpu
           gui_state := gui_state
           last_render_time := 0
           last_size := last_size
           switch_position := false }

/-- `DemoApp::handle_event` (`demo.rs` lines 250-332).  `control_flow` is
the in/out `&mut ControlFlow`; `now` is `Instant::now()`; the result is
`none` when the call panics (surface acquisition failure inside the
redraw branch). -/
def DemoApp.handle_event (app : DemoApp) (event : Event) (control_flow : ControlFlow)
    (now : Nat) : Option (DemoApp × ControlFlow) :=
  match event with
  | .WindowEvent ev =>
    if app.gui_state.on_window_event ev then
      some (app, control_flow)
    else
      match ev with
      | .KeyboardInput e =>
        match e.physical_key with
        | .Escape => some (app, .Exit)
        | .Other _ => some (app, control_flow)
      | .Resized width height =>
        let renderer := app.renderer.resize width height
        let scale_factor := app.window.scale_factor
        some ({ app with
                  renderer := renderer
                  last_size := (width, height)
                  gui_state := app.gui_state.set_pixels_per_point scale_factor },
              control_flow)
      | .CloseRequested => some (app, .Exit)
      | .Other _ => some (app, control_flow)
  | .RedrawRequested =>
    let delta_time := now - app.last_render_time
    let out := app.gui_state.frame_output
    let paint_jobs := tessellate out.shapes out.pixels_per_point
    let screen_descriptor : ScreenDescriptor :=
      { size_in_pixels := app.last_size
        pixels_per_point := app.window.scale_factor }
    match app.renderer.render_frame screen_descriptor paint_jobs out.textures_delta
        delta_time with
    | none => none
    | some renderer =>
      some ({ app with renderer := renderer, last_render_time := now }, control_flow)
  | .Other _ => some (app, control_flow)

/-- Run `handle_event` over a sequence of events, threading the
application state and the control flow; `none` as soon as one event
panics. -/
def processEvents (app : DemoApp) (control_flow : ControlFlow) (events : List Event)
    (now : Nat) : Option (DemoApp × ControlFlow) :=
  match events with
  | [] => some (app, control_flow)
  | ev :: rest =>
    match app.handle_event ev control_flow now with
    | none => none
    | some (app', cf') => processEvents app' cf' rest now

/-- A concrete non-sRGB texture format used by the concrete scenarios. -/
def demoFormat : TextureFormat := { id := 1, srgb := false }

/-- A concrete surface configuration at 800×600. -/
def demoConfig : SurfaceConfiguration :=
  { usage := RENDER_ATTACHMENT
    format := demoFormat
    width := 800
    height := 600
    present_mode := 0
    alpha_mode := 0
    view_formats := []
    desired_maximum_frame_latency := 2 }

/-- A concrete GPU context whose surface is configured and has a
presentable image available. -/
def demoGpu : Gpu :=
  { surface := { configured := some demoConfig, current_texture := some 0 }
    device := 0
    queue := 0
    surface_config := demoConfig
    surface_format := demoFormat }

/-- A concrete renderer built over `demoGpu`. -/
def demoRenderer : Renderer := Renderer.new demoGpu

/-- A concrete renderer whose surface cannot hand out an image
(acquisition fails). -/
def demoRendererLost : Renderer :=
  Renderer.new { demoGpu with surface := { configured := some demoConfig, current_texture := none } }

/-- A concrete empty egui renderer. -/
def demoEgui : EguiRenderer := { textures := fun _ => none, last_buffers := none }

/-- A concrete GUI frame output: no texture updates, no shapes. -/
def demoFullOutput : FullOutput :=
  { textures_delta := { set := [], free := [] }, shapes := [], pixels_per_point := 1 }

/-- A concrete GUI adapter that consumes no event. -/
def demoGuiF : GuiState :=
  { consumes := fun _ => false, pixels_per_point := 1, frame_output := demoFullOutput }

/-- A concrete GUI adapter that consumes every event. -/
def demoGuiT : GuiState :=
  { consumes := fun _ => true, pixels_per_point := 1, frame_output := demoFullOutput }

/-- A concrete 800×600 window at scale factor 1. -/
def demoWindow : Window := { scale_factor := 1, inner_size := (800, 600) }

/-- A concrete application whose GUI adapter consumes no event. -/
def demoAppF : DemoApp :=
  { window := demoWindow
    renderer := demoRenderer
    gui_state := demoGuiF
    last_render_time := 0
    last_size := (800, 600)
    switch_position := false }

/-- A concrete application whose GUI adapter consumes every event. -/
def demoAppT : DemoApp := { demoAppF with gui_state := demoGuiT }

/-- Surface capabilities reporting an sRGB format first, then
`demoFormat`. -/
def demoCaps : SurfaceCapabilities :=
  { formats := [{ id := 0, srgb := true }, demoFormat]
    present_modes := [0]
    alpha_modes := [0] }

/-- Startup of the concrete scenario: build the application from the
800×600 window. -/
def demoStep0 : Option DemoApp :=
  DemoApp.new demoWindow { configured := none, current_texture := some 0 } 0 0 demoCaps demoGuiF

/-- First redraw of the concrete scenario. -/
def demoStep1 : Option (DemoApp × ControlFlow) :=
  demoStep0.bind fun a => a.handle_event .RedrawRequested .Poll 1

/-- Unconsumed resize to 1024×768 in the concrete scenario. -/
def demoStep2 : Option (DemoApp × ControlFlow) :=
  demoStep1.bind fun s => s.1.handle_event (.WindowEvent (.Resized 1024 768)) s.2 2

/-- Second redraw of the concrete scenario. -/
def demoStep3 : Option (DemoApp × ControlFlow) :=
  demoStep2.bind fun s => s.1.handle_event .RedrawRequested s.2 3

/-- Helper: handling an unconsumed resize event resizes the renderer,
stores the new last-known size and updates the GUI scale setting. -/
theorem handle_resized_unconsumed (app : DemoApp) (control_flow : ControlFlow)
    (now width height : Nat)
    (hc : app.gui_state.on_window_event (.Resized width height) = false) :
    app.handle_event (.WindowEvent (.Resized width height)) control_flow now =
      some ({ app with
                renderer := app.renderer.resize width height
                last_size := (width, height)
                gui_state := app.gui_state.set_pixels_per_point app.window.scale_factor },
            control_flow) := by
  simp [DemoApp.handle_event, hc]

/-- Helper: `List.find?` returns the first element satisfying the
predicate, or `none` when no element does. -/
theorem find_first_spec (p : TextureFormat → Bool) (l : List TextureFormat) :
    (∃ f, l.find? p = some f ∧
      ∃ l1 l2, l = l1 ++ f :: l2 ∧ (∀ g ∈ l1, p g = false) ∧ p f = true) ∨
    (l.find? p = none ∧ ∀ g ∈ l, p g = false) := by
  induction l with
  | nil => exact Or.inr ⟨rfl, by simp⟩
  | cons a l ih =>
    cases ha : p a with
    | true =>
      exact Or.inl ⟨a, by simp [List.find?, ha], [], l, by simp, by simp, ha⟩
    | false =>
      rcases ih with ⟨f, hf, l1, l2, hl, h1, hp⟩ | ⟨hn, hall⟩
      · refine Or.inl ⟨f, by simp [List.find?, ha, hf], a :: l1, l2, by simp [hl], ?_, hp⟩
        intro g hg
        rcases List.mem_cons.mp hg with rfl | hg
        · exact ha
        · exact h1 g hg
      · refine Or.inr ⟨by simp [List.find?, ha, hn], ?_⟩
        intro g hg
        rcases List.mem_cons.mp hg with rfl | hg
        · exact ha
        · exact hall g hg

/-- C1: after handling the last resize event of a sequence of resize
events processed by the application loop (none consumed by the GUI
adapter), the GPU context's stored surface configuration width and height
equal the dimensions carried by that most recent resize event. -/
theorem resize_sequence_tracks_last (app : DemoApp) (control_flow : ControlFlow)
    (now : Nat) (l : List (Nat × Nat)) (width height : Nat)
    (hc : ∀ w h, app.gui_state.consumes (.Resized w h) = false) :
    (processEvents app control_flow
        ((l ++ [(width, height)]).map fun p => Event.WindowEvent (.Resized p.1 p.2))
        now).map
        (fun s => (s.1.renderer.gpu.surface_config.width,
          s.1.renderer.gpu.surface_config.height)) =
      some (width, height) := by
  induction l generalizing app control_flow with
  | nil =>
    have h := handle_resized_unconsumed app control_flow now width height (hc width height)
    simp [processEvents, h, Renderer.resize, Gpu.resize]
  | cons p l ih =>
    have h := handle_resized_unconsumed app control_flow now p.1 p.2 (hc p.1 p.2)
    simp only [List.cons_append, List.map_cons, processEvents, h]
    exact ih _ control_flow hc

theorem resize_sequence_tracks_last_witness :
    (processEvents demoAppF .Poll
        ((([(10, 20)] ++ [(1024, 768)] : List (Nat × Nat))).map fun p =>
          Event.WindowEvent (.Resized p.1 p.2))
        0).map
        (fun s => (s.1.renderer.gpu.surface_config.width,
          s.1.renderer.gpu.surface_config.height)) =
      some (1024, 768) :=
  resize_sequence_tracks_last demoAppF .Poll 0 [(10, 20)] 1024 768 (fun _ _ => rfl)

/-- C2: if acquiring the next presentable surface image fails,
`render_frame` terminates fatally — the failure propagates out of the
whole call, with no retry and no skip-frame fallback. -/
theorem render_frame_acquire_failure_fatal (r : Renderer) (sd : ScreenDescriptor)
    (pj : List ClippedPrimitive) (td : TexturesDelta) (dt : Nat)
    (h : r.gpu.surface.get_current_texture = none) :
    r.render_frame sd pj td dt = none := by
  simp [Renderer.render_frame, h]

theorem render_frame_acquire_failure_fatal_witness :
    demoRendererLost.render_frame ⟨(800, 600), 1⟩ [] ⟨[], []⟩ 0 = none :=
  render_frame_acquire_failure_fatal demoRendererLost ⟨(800, 600), 1⟩ [] ⟨[], []⟩ 0 rfl

/-- C3: a window event the GUI adapter reports as consumed triggers none
of the application loop's own handling — the application state and the
control flow are returned unchanged, so in particular a consumed
close-request never causes exit. -/
theorem consumed_event_no_own_handling (app : DemoApp) (ev : WindowEvent)
    (control_flow : ControlFlow) (now : Nat)
    (hc : app.gui_state.on_window_event ev = true) :
    app.handle_event (.WindowEvent ev) control_flow now = some (app, control_flow) := by
  simp [DemoApp.handle_event, hc]

theorem consumed_event_no_own_handling_witness :
    demoAppT.handle_event (.WindowEvent .CloseRequested) .Poll 0 = some (demoAppT, .Poll) :=
  consumed_event_no_own_handling demoAppT .CloseRequested .Poll 0 rfl

/-- C4: a close-request event the GUI adapter does not consume sets the
control flow to the Exiting state, regardless of the prior control
flow. -/
theorem close_request_unconsumed_exits (app : DemoApp) (control_flow : ControlFlow)
    (now : Nat) (hc : app.gui_state.on_window_event .CloseRequested = false) :
    app.handle_event (.WindowEvent .CloseRequested) control_flow now =
      some (app, .Exit) := by
  simp [DemoApp.handle_event, hc]

theorem close_request_unconsumed_exits_witness :
    demoAppF.handle_event (.WindowEvent .CloseRequested) .Wait 0 = some (demoAppF, .Exit) :=
  close_request_unconsumed_exits demoAppF .Wait 0 rfl

/-- C5: `Gpu::resize` with the dimensions already stored in the surface
configuration is idempotent — repeating the call changes nothing, and
when the surface already holds the stored configuration the call is a
complete no-op. -/
theorem resize_same_dims_idempotent (g : Gpu) (w h : Nat) :
    (g.resize w h).resize w h = g.resize w h ∧
    (g.surface_config.width = w → g.surface_config.height = h →
      g.surface.configured = some g.surface_config → g.resize w h = g) := by
  constructor
  · rfl
  · intro hw hh hs
    subst hw
    subst hh
    rcases g with ⟨⟨conf, tex⟩, dev, q, sc, sf⟩
    dsimp only at hs
    subst hs
    rfl

theorem resize_same_dims_idempotent_witness :
    (demoGpu.resize 800 600).resize 800 600 = demoGpu.resize 800 600 ∧
      demoGpu.resize 800 600 = demoGpu :=
  ⟨(resize_same_dims_idempotent demoGpu 800 600).1,
    (resize_same_dims_idempotent demoGpu 800 600).2 rfl rfl rfl⟩

/-- C6: applying a texture delta batch containing a free for id A and a
set for a distinct id B yields the same cache contents in either arrival
order. -/
theorem texture_delta_distinct_ids_commute (er : EguiRenderer) (A B : TextureId)
    (d : ImageDelta) (hAB : A ≠ B) :
    er.applyEntries [.free A, .set B d] = er.applyEntries [.set B d, .free A] := by
  dsimp [EguiRenderer.applyEntries, EguiRenderer.applyEntry,
    EguiRenderer.update_texture, EguiRenderer.free_texture]
  congr 1
  funext i
  by_cases h1 : i = A
  · subst h1
    simp [hAB]
  · by_cases h2 : i = B
    · subst h2
      simp [h1]
    · simp [h1, h2]

theorem texture_delta_distinct_ids_commute_witness :
    demoEgui.applyEntries [.free 0, .set 1 7] = demoEgui.applyEntries [.set 1 7, .free 0] :=
  texture_delta_distinct_ids_commute demoEgui 0 1 7 (by decide)

/-- C7: at GPU context creation the surface format chosen is the first
non-sRGB format of the capability list, and when every format is sRGB it
is the first format of the list. -/
theorem surface_format_first_non_srgb (formats : List TextureFormat)
    (hne : formats ≠ []) :
    ∃ f, surfaceFormatOf formats = some f ∧
      ((∃ l1 l2, formats = l1 ++ f :: l2 ∧ (∀ g ∈ l1, g.is_srgb = true) ∧
          f.is_srgb = false) ∨
        ((∀ g ∈ formats, g.is_srgb = true) ∧ formats.head? = some f)) := by
  rcases formats with _ | ⟨f0, rest⟩
  · exact absurd rfl hne
  · rcases find_first_spec (fun f => ! f.is_srgb) (f0 :: rest) with
      ⟨f, hf, l1, l2, hl, h1, hp⟩ | ⟨hn, hall⟩
    · refine ⟨f, ?_, Or.inl ⟨l1, l2, hl, ?_, ?_⟩⟩
      · simp [surfaceFormatOf, hf]
      · intro g hg
        simpa using h1 g hg
      · simpa using hp
    · refine ⟨f0, ?_, Or.inr ⟨?_, rfl⟩⟩
      · simp [surfaceFormatOf, hn]
      · intro g hg
        simpa using hall g hg

theorem surface_format_first_non_srgb_witness :
    ∃ f, surfaceFormatOf demoCaps.formats = some f ∧
      ((∃ l1 l2, demoCaps.formats = l1 ++ f :: l2 ∧ (∀ g ∈ l1, g.is_srgb = true) ∧
          f.is_srgb = false) ∨
        ((∀ g ∈ demoCaps.formats, g.is_srgb = true) ∧ demoCaps.formats.head? = some f)) :=
  surface_format_first_non_srgb demoCaps.formats (by simp [demoCaps])

/-- C8: in the concrete scenario, the window is created at 800×600 and
the first redraw's screen descriptor reports (800, 600); an unconsumed
resize to 1024×768 reconfigures the GPU context to 1024×768; the next
redraw's screen descriptor reports (1024, 768). -/
theorem redraw_descriptor_tracks_window_size :
    demoStep1.map (fun s =>
        s.1.renderer.egui_renderer.last_buffers.map fun b => b.2.size_in_pixels) =
      some (some (800, 600)) ∧
    demoStep2.map (fun s =>
        (s.1.renderer.gpu.surface_config.width, s.1.renderer.gpu.surface_config.height)) =
      some (1024, 768) ∧
    demoStep3.map (fun s =>
        s.1.renderer.egui_renderer.last_buffers.map fun b => b.2.size_in_pixels) =
      some (some (1024, 768)) :=
  ⟨rfl, rfl, rfl⟩

/-- C9: `render_frame` never modifies the GPU context's stored surface
configuration or surface format — whenever it returns a renderer, that
renderer's configuration and format equal the ones before the call. -/
theorem render_frame_preserves_surface_config (r : Renderer) (sd : ScreenDescriptor)
    (pj : List ClippedPrimitive) (td : TexturesDelta) (dt : Nat) (r' : Renderer)
    (h : r.render_frame sd pj td dt = some r') :
    r'.gpu.surface_config = r.gpu.surface_config ∧
      r'.gpu.surface_format = r.gpu.surface_format := by
  dsimp only [Renderer.render_frame] at h
  cases hq : r.gpu.surface.get_current_texture with
  | none =>
    rw [hq] at h
    exact Option.noConfusion h
  | some t =>
    rw [hq] at h
    cases h
    exact ⟨rfl, rfl⟩

/-- A concrete successful `render_frame` result, used to instantiate the
preservation theorem. -/
def demoRendererAfter : Renderer :=
  (demoRenderer.render_frame ⟨(800, 600), 1⟩ [] ⟨[], []⟩ 0).getD demoRenderer

theorem render_frame_preserves_surface_config_witness :
    demoRendererAfter.gpu.surface_config = demoRenderer.gpu.surface_config ∧
      demoRendererAfter.gpu.surface_format = demoRenderer.gpu.surface_format :=
  render_frame_preserves_surface_config demoRenderer ⟨(800, 600), 1⟩ [] ⟨[], []⟩ 0
    demoRendererAfter rfl

/-- C10: an unconsumed keyboard event whose physical key is Escape sets
the control flow to the Exiting state whatever the pressed/released state
of the key is — the handler never inspects that state. -/
theorem escape_exits_regardless_of_key_state (app : DemoApp) (control_flow : ControlFlow)
    (now : Nat) (st : ElementState)
    (hc : app.gui_state.on_window_event (.KeyboardInput ⟨.Escape, st⟩) = false) :
    app.handle_event (.WindowEvent (.KeyboardInput ⟨.Escape, st⟩)) control_flow now =
      some (app, .Exit) := by
  simp [DemoApp.handle_event, hc]

theorem escape_exits_regardless_of_key_state_witness :
    demoAppF.handle_event (.WindowEvent (.KeyboardInput ⟨.Escape, .Released⟩)) .Poll 0 =
      some (demoAppF, .Exit) :=
  escape_exits_regardless_of_key_state demoAppF .Poll 0 .Released rfl

end Demo
